import Mathlib

/-!
Verification of the ELFS repository (encrypted userspace filesystem) against its
specification.  The Go sources embedded here are:

* `src/bin/elfs-cli/main.go` — the interactive CLI shell over the driver;
* `src/connector/local/connector.go` — the local-disk connector;
* `src/driver/driver.go` — the driver struct and constructor.

Pure argument handling of CLI commands becomes Lean functions from the argument
list to either an error or the driver call the command would issue; the local
connector's process-global state (the `activeConnections` registry and the
on-disk lock files and directories) becomes an explicit state record threaded
through the operations.
-/

namespace Elfs

/-- `group.Permission`: a pair of read/write booleans (spec §3). -/
structure Permission where
  read : Bool
  write : Bool
deriving DecidableEq, Repr

/-- `group.NewPermission(read, write)`. -/
def newPermission (read write : Bool) : Permission := ⟨read, write⟩

/-- The driver operations a CLI command can issue.  The CLI embedding records
which call is made with which arguments; the driver's own behaviour on the call
is out of scope for the CLI-level claims. -/
inductive DriverCall where
  | putGroupAccess (direntId : String) (groupId : Int) (perm : Permission)
  | removeFile (direntId : String)
  | removeDir (direntId : String)
  | put (name : String) (perms : List (Int × Permission)) (parent : String)
  | makeDir (name : String) (parent : String) (perms : List (Int × Permission))
deriving DecidableEq, Repr

/-- Errors the CLI layer reports without reaching the driver. -/
inductive CliError where
  | usage (cmd : String)
  | parse (arg : String)
  | badPermission (n : Int)
  | needLogin
  | unknownOperation (op : String)
  | authFailed
  | alreadyExists
deriving DecidableEq, Repr

/-- Digits of a decimal numeral; `none` when empty or a non-digit occurs
(`strconv.Atoi`'s digit loop). -/
def digitsToNat (cs : List Char) : Option Nat :=
  if cs.isEmpty then none
  else cs.foldlM (fun acc c => if c.isDigit then some (acc * 10 + (c.toNat - 48)) else none) 0

/-- `strconv.Atoi`: optional sign, decimal digits, 64-bit range check
(Go `int` is 64-bit on the targeted platforms). -/
def strconvAtoi (s : String) : Option Int :=
  let signed : Bool × List Char :=
    match s.data with
    | '+' :: rest => (false, rest)
    | '-' :: rest => (true, rest)
    | cs => (false, cs)
  match digitsToNat signed.2 with
  | none => none
  | some n =>
    if signed.1 then
      if n ≤ 2 ^ 63 then some (-(n : Int)) else none
    else
      if n ≤ 2 ^ 63 - 1 then some (n : Int) else none

/-- `permissionAdd` (main.go, `permadd`): three arguments — dirent id, group id,
permission number; permission must be 2, 4 or 6; read is `permission % 4 == 0`
and write is `permission % 2 == 0` (Go `%` on the values reached here agrees
with `Int.tmod`); then `PutGroupAccess` is invoked. -/
def permissionAdd (args : List String) : Except CliError DriverCall :=
  if args.length ≠ 3 then .error (.usage "permadd")
  else
    let direntId := args.headD ""
    match strconvAtoi ((args.drop 1).headD "") with
    | none => .error (.parse ((args.drop 1).headD ""))
    | some groupId =>
      match strconvAtoi ((args.drop 2).headD "") with
      | none => .error (.parse ((args.drop 2).headD ""))
      | some permission =>
        if permission ≠ 2 ∧ permission ≠ 4 ∧ permission ≠ 6 then
          .error (.badPermission permission)
        else
          .ok (.putGroupAccess direntId groupId
            (newPermission (Int.tmod permission 4 = 0) (Int.tmod permission 2 = 0)))

/-- `remove` (main.go, `rm`): rejects unless the arguments are `<id>` or
`-r <id>`; one argument removes a file, `-r` plus an id removes a directory. -/
def remove (args : List String) : Except CliError DriverCall :=
  if args.length < 1 ∨ args.length > 2 ∨ (args.length = 2 ∧ args.headD "" ≠ "-r") then
    .error (.usage "rm")
  else
    let (isFile, rest) := if args.length = 2 then (false, args.drop 1) else (true, args)
    let direntId := rest.headD ""
    if isFile then .ok (.removeFile direntId) else .ok (.removeDir direntId)

/-- The command table built in `init()` of main.go. -/
def commandNames : List String :=
  ["cat", "create", "demote", "export", "groupadd", "groupdel", "groupjoin",
   "groupkick", "grouplist", "help", "import", "login", "ls", "mkdir", "mv",
   "promote", "rename", "rm", "useradd", "userdel", "userlist", "chown",
   "permadd", "permdel"]

/-- Outcome of dispatching one command line. -/
inductive CmdOutcome where
  | needLogin
  | unknownOperation (op : String)
  | dispatched (op : String) (args : List String)
deriving DecidableEq, Repr

/-- `processCommand` (main.go): the first word is the operation; with nobody
logged in only `login` and `create` pass; otherwise the operation is looked up
in the command table and dispatched with the remaining words.  The caller
(`main`'s loop) never passes an empty line, so `args` is the non-empty result
of `shellquote.Split`.  `activeUser` is the logged-in user's name, if any. -/
def processCommand (activeUser : Option String) (args : List String) : CmdOutcome :=
  let operation := args.headD ""
  let rest := args.drop 1
  if activeUser = none ∧ operation ≠ "login" ∧ operation ≠ "create" then
    .needLogin
  else if operation ∈ commandNames then
    .dispatched operation rest
  else
    .unknownOperation operation

/-- `user.User`: id, unique name, password digest. -/
structure User where
  id : Int
  name : String
  passhash : List Nat
deriving DecidableEq, Repr

/-- The driver state the login/create claims need: the users table plus whether
any metadata blob already exists on the backend. -/
structure FsState where
  users : List User
  metadataExists : Bool
deriving DecidableEq, Repr

/-- Modelled from the spec: `util.ShaHash` is not under src/; the spec (§1)
scopes password hashing as "a deterministic 256-bit digest of the password"
and §8 relies on distinct passwords yielding distinct digests.  Modelled as a
deterministic, injective digest of the password string. -/
def shaHash (password : String) : List Nat :=
  password.data.map Char.toNat

/-- Modelled from the spec: `Driver.CreateFilesystem` is not under src/.  Per
§4.6 it "fails if any metadata blob already exists; initializes ROOT user with
the given hash" (ROOT is user id 0 named "root", §8 scenario 1 and glossary). -/
def createFilesystem (rootHash : List Nat) (s : FsState) : Except CliError FsState :=
  if s.metadataExists then .error .alreadyExists
  else .ok { users := [⟨0, "root", rootHash⟩], metadataExists := true }

/-- Modelled from the spec: `Driver.UserAuth` is not under src/.  Per §4.3,
`userAuth(name, hash) → User | AuthFailed` compares name and hash. -/
def userAuth (name : String) (hash : List Nat) (s : FsState) : Except CliError User :=
  match s.users.find? (fun u => u.name = name ∧ u.passhash = hash) with
  | some u => .ok u
  | none => .error .authFailed

/-- `create` (main.go): one argument, the root password; calls
`CreateFilesystem(util.ShaHash(args[0]))`. -/
def cliCreate (args : List String) (s : FsState) : Except CliError FsState :=
  if args.length ≠ 1 then .error (.usage "create")
  else createFilesystem (shaHash (args.headD "")) s

/-- `login` (main.go): two arguments, username and password; calls
`UserAuth(args[0], util.ShaHash(args[1]))` and on success the authenticated
user becomes the active user. -/
def cliLogin (args : List String) (s : FsState) : Except CliError User :=
  if args.length ≠ 2 then .error (.usage "login")
  else userAuth (args.headD "") (shaHash ((args.drop 1).headD "")) s

/-! ## Local connector (src/connector/local/connector.go) -/

/-- Errors of the local connector operations. -/
inductive GoError where
  | duplicateConnection (path : String)
  | alreadyLocked (path : String) (pid : String)
  | removeFailed (path : String)
  | badDataGroupLen (n : Nat)
  | putFailed (name : String)
  | makeDirFailed (name : String)
deriving DecidableEq, Repr

/-- `LocalConnector`: holds the (absolute) backend path. -/
structure LocalConnector where
  path : String
deriving DecidableEq, Repr

/-- The process-global and on-disk state the local connector touches:
the `activeConnections` registry (path → bool), the contents of lock files
(lock path → recorded pid string), and the set of existing directories.
Directories are a list used as a set; `mkdirAll`'s creation of intermediate
parents is immaterial to the claims and elided. -/
structure LocalSys where
  activeConnections : List (String × Bool)
  lockFiles : List (String × String)
  dirs : List String
deriving DecidableEq, Repr

/-- `filepath.Join` of two components. -/
def joinPath (a b : String) : String := a ++ "/" ++ b

/-- `connector.FS_SYS_DIR_ADMIN`; per the on-disk layout (§6) metadata lives
under `admin/`. -/
def fsSysDirAdmin : String := "admin"

/-- `connector.FS_SYS_DIR_DATA`; per the on-disk layout (§6) data blobs live
under `data/`. -/
def fsSysDirData : String := "data"

/-- Modelled from the spec: `getLockPath` is not under src/; §6 places the
lock at `admin/lock`. -/
def getLockPath (path : String) : String :=
  joinPath (joinPath path fsSysDirAdmin) "lock"

/-- Insert or overwrite a key in an association list. -/
def insertAssoc (k : String) (v : α) (l : List (String × α)) : List (String × α) :=
  (k, v) :: l.filter (fun p => p.1 ≠ k)

/-- Remove a key from an association list (`os.Remove` on that file). -/
def removeAssoc (k : String) (l : List (String × α)) : List (String × α) :=
  l.filter (fun p => p.1 ≠ k)

/-- `os.MkdirAll`: create the directory if absent. -/
def mkdirAll (d : String) (dirs : List String) : List String :=
  if d ∈ dirs then dirs else dirs ++ [d]

/-- `LocalConnector.lock(force)`: if the lock file exists and `force` is not
set, fail reporting the pid recorded in it; otherwise write the current
process id into the lock file. -/
def lock (c : LocalConnector) (force : Bool) (pid : Nat) (s : LocalSys) :
    Except GoError LocalSys :=
  match s.lockFiles.lookup (getLockPath c.path) with
  | some content =>
    if !force then .error (.alreadyLocked c.path content)
    else .ok { s with lockFiles := insertAssoc (getLockPath c.path) (toString pid) s.lockFiles }
  | none => .ok { s with lockFiles := insertAssoc (getLockPath c.path) (toString pid) s.lockFiles }

/-- `NewLocalConnector(path, force)`: under the registry mutex, reject a path
present in `activeConnections` (note the source never inserts the path on
success); `os.MkdirAll` the admin directory (error ignored in the source);
then take the lock.  `filepath.Abs` is modelled as the identity (paths are
taken already absolute); `pid` is the current process id. -/
def newLocalConnector (path : String) (force : Bool) (pid : Nat) (s : LocalSys) :
    Except GoError (LocalConnector × LocalSys) :=
  if (s.activeConnections.lookup path).isSome then
    .error (.duplicateConnection path)
  else
    let s1 := { s with dirs := mkdirAll (joinPath path fsSysDirAdmin) s.dirs }
    let c : LocalConnector := ⟨path⟩
    match lock c force pid s1 with
    | .error e => .error e
    | .ok s2 => .ok (c, s2)

/-- `LocalConnector.unlock()`: remove the lock file; `os.Remove` fails when it
is absent. -/
def unlock (c : LocalConnector) (s : LocalSys) : Except GoError Unit × LocalSys :=
  match s.lockFiles.lookup (getLockPath c.path) with
  | some _ => (.ok (), { s with lockFiles := removeAssoc (getLockPath c.path) s.lockFiles })
  | none => (.error (.removeFailed (getLockPath c.path)), s)

/-- `LocalConnector.Close()`: under the registry mutex, set
`activeConnections[path] = false`, then `unlock()`; the registry update
happens regardless of the unlock outcome. -/
def closeConnector (c : LocalConnector) (s : LocalSys) : Except GoError Unit × LocalSys :=
  let s1 := { s with activeConnections := insertAssoc c.path false s.activeConnections }
  unlock c s1

/-- The directories `PrepareStorage` creates: the backend path, the admin
directory, the data directory, and one data subdirectory per character of
`randomChars` (the DirentId alphabet `util.RANDOM_CHARS`, whose definition is
not under src/ and is kept as a parameter). -/
def prepareDirs (randomChars : List Char) (c : LocalConnector) : List String :=
  [c.path, joinPath c.path fsSysDirAdmin, joinPath c.path fsSysDirData]
    ++ randomChars.map (fun ch => joinPath (joinPath c.path fsSysDirData) ch.toString)

/-- `LocalConnector.PrepareStorage()`: errors unless
`connector.DATA_GROUP_PREFIX_LEN` (a constant not under src/, kept as the
parameter `dataGroupLen`; per §6 the data partition key is the first character
of the DirentId) equals 1; otherwise `os.MkdirAll`s the backend path, the
admin and data directories, and one subdirectory of data per character of the
DirentId alphabet. -/
def prepareStorage (dataGroupLen : Nat) (randomChars : List Char) (c : LocalConnector)
    (s : LocalSys) : Except GoError LocalSys :=
  if dataGroupLen ≠ 1 then .error (.badDataGroupLen dataGroupLen)
  else .ok { s with dirs := (prepareDirs randomChars c).foldl (fun acc d => mkdirAll d acc) s.dirs }

/-! ## Import (main.go: `importFile`, `importFileInternal`, `recursiveImport`)

The external filesystem node at a path is the result of `os.Stat` plus, for
directories, `ioutil.ReadDir`: a tree whose nodes carry their names.  For a
node reached at path `p`, `filepath.Base(p)` and `fileInfo.Name()` are both
the node's own name (names contain no separators).  File contents are streamed
to `Put` and play no role in these claims. -/

/-- An external file or directory as observed by `os.Stat`/`ioutil.ReadDir`. -/
inductive ExtNode where
  | file (name : String)
  | dir (name : String) (children : List ExtNode)

/-- The driver as the import code sees it: the results of `Put` (by file name
and parent) and of `MakeDir` (returning the fresh directory id). -/
structure ImportDriver where
  putRes : String → String → Except GoError Unit
  makeDirRes : String → String → Except GoError String

/-- Modelled from the spec: `dirent.ROOT_ID` is not under src/; §3 reserves
one DirentId value for the root directory. -/
def ROOT_ID : String := "ROOT"

/-- `importFileInternal` (main.go): open the external file and
`Put(activeUser, filepath.Base(path), reader, {}, parent)`.  Returns the
driver's result and the call issued. -/
def importFileInternal (d : ImportDriver) (name parent : String) :
    Except GoError Unit × List DriverCall :=
  (d.putRes name parent, [.put name [] parent])

mutual

/-- `recursiveImport` (main.go): a plain file is imported via
`importFileInternal`; for a directory, first `MakeDir(activeUser, name,
parent, {})`, then each child is imported into the fresh id, returning at
the first error. -/
def recursiveImport (d : ImportDriver) : ExtNode → String →
    Except GoError Unit × List DriverCall
  | .file name, parent => importFileInternal d name parent
  | .dir name children, parent =>
    match d.makeDirRes name parent with
    | .error e => (.error e, [.makeDir name parent []])
    | .ok newId =>
      let r := importChildren d children newId
      (r.1, .makeDir name parent [] :: r.2)

/-- The `for _, child := range(children)` loop of `recursiveImport`: import
each child in order, returning at the first error. -/
def importChildren (d : ImportDriver) : List ExtNode → String →
    Except GoError Unit × List DriverCall
  | [], _ => (.ok (), [])
  | child :: rest, newId =>
    match recursiveImport d child newId with
    | (.error e, tr) => (.error e, tr)
    | (.ok _, tr) =>
      let r := importChildren d rest newId
      (r.1, tr ++ r.2)

end

/-- `importFile` (main.go, `import`): one or two arguments; the parent
defaults to `dirent.ROOT_ID`; then `recursiveImport` on the external node at
`args[0]`. -/
def importFile (d : ImportDriver) (node : ExtNode) (args : List String) :
    Except CliError (Except GoError Unit × List DriverCall) :=
  if args.length < 1 ∨ args.length > 2 then .error (.usage "import")
  else
    let parent := if args.length = 2 then (args.drop 1).headD "" else ROOT_ID
    .ok (recursiveImport d node parent)

/-- A concrete driver for exercising the import behaviour: `Put` fails on the
file named `bad`, `MakeDir` returns a fresh id derived from name and parent. -/
def importTestDriver : ImportDriver where
  putRes := fun name _ => if name = "bad" then .error (.putFailed name) else .ok ()
  makeDirRes := fun name parent => .ok (name ++ "@" ++ parent)

/-! ## Theorems -/

/-- C1: evaluation of `permissionAdd` at the accepted permission numbers.  The
code passes `Permission(read=true, write=true)` for 4 and
`Permission(read=false, write=true)` for 6 — diverging from the specified
encoding 4 = read-only and 6 = read-and-write (the `% 2` test for write and
the `% 4` test for read both succeed on 4, and the `% 4` read test fails
on 6); only 2 = write-only comes out as specified. -/
theorem permadd_encoding_bug :
    permissionAdd ["f", "1", "4"] = .ok (.putGroupAccess "f" 1 (newPermission true true)) ∧
    permissionAdd ["f", "1", "6"] = .ok (.putGroupAccess "f" 1 (newPermission false true)) ∧
    permissionAdd ["f", "1", "2"] = .ok (.putGroupAccess "f" 1 (newPermission false true)) := by
  refine ⟨rfl, rfl, rfl⟩

/-- C4: with three arguments whose permission number parses to anything other
than 2, 4 or 6, `permadd` returns a bad-parameter error (a parse failure on
the group id, or the bad-permission error) and never reaches
`PutGroupAccess`. -/
theorem permadd_rejects_bad_numbers (args : List String) (n : Int)
    (hlen : args.length = 3)
    (hn : strconvAtoi ((args.drop 2).headD "") = some n)
    (h2 : n ≠ 2) (h4 : n ≠ 4) (h6 : n ≠ 6) :
    permissionAdd args = .error (.parse ((args.drop 1).headD "")) ∨
    permissionAdd args = .error (.badPermission n) := by
  unfold permissionAdd
  rw [if_neg (by simp [hlen])]
  cases hg : strconvAtoi ((args.drop 1).headD "") with
  | none => exact Or.inl rfl
  | some g =>
    rw [hn]
    exact Or.inr (by simp [h2, h4, h6])

/-- Witness for C4 at a concrete rejected permission number. -/
theorem permadd_rejects_bad_numbers_witness :
    permissionAdd ["f", "1", "5"] = .error (.parse "1") ∨
    permissionAdd ["f", "1", "5"] = .error (.badPermission 5) :=
  permadd_rejects_bad_numbers ["f", "1", "5"] 5 rfl rfl
    (by decide) (by decide) (by decide)

/-- C6: `rm <id>` issues `RemoveFile` on the id, `rm -r <id>` issues
`RemoveDir` on the id, and every other argument shape (no arguments, more
than two, or two whose first is not `-r`) is rejected with a usage error and
no driver call. -/
theorem remove_dispatch :
    (∀ x, remove [x] = .ok (.removeFile x)) ∧
    (∀ x, remove ["-r", x] = .ok (.removeDir x)) ∧
    (∀ args : List String,
      args.length = 0 ∨ args.length > 2 ∨ (args.length = 2 ∧ args.headD "" ≠ "-r") →
      remove args = .error (.usage "rm")) := by
  refine ⟨fun x => rfl, fun x => ?_, fun args h => ?_⟩
  · simp [remove]
  · unfold remove
    rcases h with h | h | h
    · rw [if_pos (Or.inl (by omega))]
    · rw [if_pos (Or.inr (Or.inl h))]
    · rw [if_pos (Or.inr (Or.inr h))]

/-- Witness for C6 on concrete argument lists of each shape. -/
theorem remove_dispatch_witness :
    remove ["a"] = .ok (.removeFile "a") ∧
    remove ["-r", "b"] = .ok (.removeDir "b") ∧
    remove ["x", "y"] = .error (.usage "rm") :=
  ⟨remove_dispatch.1 "a", remove_dispatch.2.1 "b",
   remove_dispatch.2.2 ["x", "y"] (by simp)⟩

/-- C9: with no active user, any command line whose operation is neither
`login` nor `create` yields the need-to-login outcome — the command function
is never dispatched, so no driver operation runs; with a user logged in, any
operation in the command table is dispatched with the remaining arguments. -/
theorem processCommand_login_gate :
    (∀ args : List String,
      args.headD "" ≠ "login" → args.headD "" ≠ "create" →
      processCommand none args = .needLogin) ∧
    (∀ (u : String) (args : List String),
      args.headD "" ∈ commandNames →
      processCommand (some u) args = .dispatched (args.headD "") (args.drop 1)) := by
  constructor
  · intro args h1 h2
    unfold processCommand
    rw [if_pos ⟨rfl, h1, h2⟩]
  · intro u args h
    unfold processCommand
    rw [if_neg (by simp), if_pos h]

/-- Witness for C9: `ls` is gated before login and dispatched after. -/
theorem processCommand_login_gate_witness :
    processCommand none ["ls"] = .needLogin ∧
    processCommand (some "root") ["ls", "A"] = .dispatched "ls" ["A"] :=
  ⟨processCommand_login_gate.1 ["ls"] (by decide) (by decide),
   processCommand_login_gate.2 "root" ["ls", "A"] (by decide)⟩

theorem shaHash_inj {a b : String} (h : shaHash a = shaHash b) : a = b := by
  unfold shaHash at h
  have hchar : Function.Injective Char.toNat :=
    fun x y hxy => Char.ext (UInt32.toNat.inj hxy)
  have hd : a.data = b.data := List.map_injective_iff.mpr hchar h
  cases a; cases b; exact congrArg String.mk hd

/-- C3: after a successful CLI `create` with root password `pw`, CLI `login`
as `root` with `pw` authenticates the root user, and `login` as `root` with
any other password fails with AuthFailed; both commands digest the password
with the same deterministic `shaHash`. -/
theorem create_login_roundtrip (pw other : String) (s s' : FsState)
    (hc : cliCreate [pw] s = .ok s') (hne : other ≠ pw) :
    cliLogin ["root", pw] s' = .ok ⟨0, "root", shaHash pw⟩ ∧
    cliLogin ["root", other] s' = .error .authFailed := by
  unfold cliCreate createFilesystem at hc
  rw [if_neg (by simp)] at hc
  by_cases hm : s.metadataExists
  · rw [if_pos hm] at hc; cases hc
  · rw [if_neg hm] at hc
    injection hc with hc
    subst hc
    constructor
    · unfold cliLogin userAuth
      simp [List.find?]
    · unfold cliLogin userAuth
      have hh : shaHash pw ≠ shaHash other := fun h => hne (shaHash_inj h.symm)
      simp [List.find?, hh]

/-- Witness for C3 on a fresh filesystem with password `pw`. -/
theorem create_login_roundtrip_witness :
    cliLogin ["root", "pw"] ⟨[⟨0, "root", shaHash "pw"⟩], true⟩ =
      .ok ⟨0, "root", shaHash "pw"⟩ ∧
    cliLogin ["root", "bad"] ⟨[⟨0, "root", shaHash "pw"⟩], true⟩ =
      .error .authFailed :=
  create_login_roundtrip "pw" "bad" ⟨[], false⟩ _ rfl (by decide)

/-- C2: the in-process registry does not prevent a second connector to the
same backend path.  On a fresh state a first connector to `/p` is created
(force not set); a second creation to `/p` with `force = true` also succeeds
while the first was never closed — `NewLocalConnector` never inserts the path
into `activeConnections`, so only the lock file stands in the way, and force
overrides it. -/
theorem second_connector_not_prevented :
    newLocalConnector "/p" false 1 ⟨[], [], []⟩ =
      .ok (⟨"/p"⟩, ⟨[], [("/p/admin/lock", "1")], ["/p/admin"]⟩) ∧
    newLocalConnector "/p" true 2 ⟨[], [("/p/admin/lock", "1")], ["/p/admin"]⟩ =
      .ok (⟨"/p"⟩, ⟨[], [("/p/admin/lock", "2")], ["/p/admin"]⟩) := by
  refine ⟨rfl, rfl⟩

/-- C10: after `Close` on a connector, every `NewLocalConnector` to the same
path in the same process fails as a duplicate connection, whatever `force`
and whatever the prior state: `Close` stores `false` under the path in
`activeConnections`, and the constructor rejects any present key. -/
theorem connector_rejected_after_close (c : LocalConnector) (s : LocalSys)
    (force : Bool) (pid : Nat) :
    newLocalConnector c.path force pid (closeConnector c s).2 =
      .error (.duplicateConnection c.path) := by
  have hac : ((closeConnector c s).2).activeConnections =
      insertAssoc c.path false s.activeConnections := by
    cases hl : List.lookup (getLockPath c.path) s.lockFiles <;>
      simp [closeConnector, unlock, hl]
  unfold newLocalConnector
  rw [if_pos (by rw [hac]; simp [insertAssoc, List.lookup])]

/-- C5: creating a local connector on a path absent from the in-process
registry fails with the already-locked error reporting the recorded pid when
the lock file exists and force is not set; when the lock file is absent or
force is set, it succeeds and the lock file records the current process
id. -/
theorem lock_protocol (path : String) (force : Bool) (pid : Nat) (s : LocalSys)
    (hreg : s.activeConnections.lookup path = none) :
    (∀ content, s.lockFiles.lookup (getLockPath path) = some content → force = false →
      newLocalConnector path force pid s = .error (.alreadyLocked path content)) ∧
    ((s.lockFiles.lookup (getLockPath path) = none ∨ force = true) →
      ∃ s' : LocalSys, newLocalConnector path force pid s = .ok (⟨path⟩, s') ∧
        s'.lockFiles.lookup (getLockPath path) = some (toString pid)) := by
  constructor
  · intro content hcontent hforce
    subst hforce
    unfold newLocalConnector
    rw [if_neg (by simp [hreg])]
    unfold lock
    simp [hcontent]
  · intro h
    have hx : newLocalConnector path force pid s =
        .ok (⟨path⟩, ⟨s.activeConnections,
          insertAssoc (getLockPath path) (toString pid) s.lockFiles,
          mkdirAll (joinPath path fsSysDirAdmin) s.dirs⟩) := by
      unfold newLocalConnector lock
      rw [if_neg (by simp [hreg])]
      rcases h with h | h
      · simp [h]
      · subst h
        cases hl : List.lookup (getLockPath path) s.lockFiles <;> simp [hl]
    exact ⟨_, hx, by simp [insertAssoc, List.lookup]⟩

/-- Witness for C5: a locked backend rejects a non-forced attach reporting
the recorded pid, and a fresh backend attaches, recording the attaching pid. -/
theorem lock_protocol_witness :
    newLocalConnector "/p" false 7 ⟨[], [("/p/admin/lock", "3")], []⟩ =
      .error (.alreadyLocked "/p" "3") ∧
    ∃ s' : LocalSys, newLocalConnector "/q" false 7 ⟨[], [], []⟩ = .ok (⟨"/q"⟩, s') ∧
      s'.lockFiles.lookup (getLockPath "/q") = some (toString 7) :=
  ⟨(lock_protocol "/p" false 7 ⟨[], [("/p/admin/lock", "3")], []⟩ rfl).1 "3" rfl rfl,
   (lock_protocol "/q" false 7 ⟨[], [], []⟩ rfl).2 (Or.inl rfl)⟩

theorem mkdirAll_eq_of_mem {d : String} {dirs : List String} (h : d ∈ dirs) :
    mkdirAll d dirs = dirs := by
  unfold mkdirAll
  rw [if_pos h]

theorem mem_mkdirAll (d x : String) (dirs : List String) :
    x ∈ mkdirAll d dirs ↔ x ∈ dirs ∨ x = d := by
  unfold mkdirAll
  split
  next h =>
    constructor
    · exact Or.inl
    · rintro (hx | rfl)
      · exact hx
      · exact h
  next h => simp

theorem mem_foldl_mkdirAll (l acc : List String) (x : String) :
    x ∈ l.foldl (fun a d => mkdirAll d a) acc ↔ x ∈ acc ∨ x ∈ l := by
  induction l generalizing acc with
  | nil => simp
  | cons d rest ih =>
    rw [List.foldl_cons, ih, mem_mkdirAll]
    simp only [List.mem_cons]
    tauto

theorem foldl_mkdirAll_of_subset (l : List String) (acc : List String)
    (h : ∀ d ∈ l, d ∈ acc) :
    l.foldl (fun a d => mkdirAll d a) acc = acc := by
  induction l generalizing acc with
  | nil => rfl
  | cons d rest ih =>
    rw [List.foldl_cons, mkdirAll_eq_of_mem (h d (List.mem_cons_self d rest))]
    exact ih acc (fun d' hd' => h d' (List.mem_cons_of_mem d hd'))

/-- C8: when `PrepareStorage` succeeds on a backend state, running it again
on the resulting state succeeds and leaves the state unchanged, and the
resulting directory set is the original one together with the backend path,
the admin directory, the data directory and one data subdirectory per
DirentId alphabet character (`prepareDirs`). -/
theorem prepareStorage_idempotent (n : Nat) (chars : List Char)
    (c : LocalConnector) (s s' : LocalSys)
    (h : prepareStorage n chars c s = .ok s') :
    prepareStorage n chars c s' = .ok s' ∧
    (∀ x, x ∈ s'.dirs ↔ x ∈ s.dirs ∨ x ∈ prepareDirs chars c) := by
  unfold prepareStorage at h ⊢
  by_cases hn : n ≠ 1
  · rw [if_pos hn] at h; cases h
  · rw [if_neg hn] at h ⊢
    injection h with h
    subst h
    refine ⟨?_, fun x => mem_foldl_mkdirAll _ _ x⟩
    have hall : ∀ d ∈ prepareDirs chars c,
        d ∈ (prepareDirs chars c).foldl (fun a d => mkdirAll d a) s.dirs :=
      fun d hd => (mem_foldl_mkdirAll _ _ d).mpr (Or.inr hd)
    rw [foldl_mkdirAll_of_subset _ _ hall]

/-- Witness for C8 on a one-character alphabet over an empty backend. -/
theorem prepareStorage_idempotent_witness :
    prepareStorage 1 ['a'] ⟨"/p"⟩ ⟨[], [], ["/p", "/p/admin", "/p/data", "/p/data/a"]⟩ =
      .ok ⟨[], [], ["/p", "/p/admin", "/p/data", "/p/data/a"]⟩ ∧
    ("/p/data/a" ∈ (["/p", "/p/admin", "/p/data", "/p/data/a"] : List String) ↔
      ("/p/data/a" ∈ ([] : List String) ∨ "/p/data/a" ∈ prepareDirs ['a'] ⟨"/p"⟩)) := by
  have h := prepareStorage_idempotent 1 ['a'] ⟨"/p"⟩ ⟨[], [], []⟩
    ⟨[], [], ["/p", "/p/admin", "/p/data", "/p/data/a"]⟩ rfl
  exact ⟨h.1, h.2 "/p/data/a"⟩

/-- C7: the `import` command with a single argument imports into the root
directory; a regular file is `Put` under its base name with empty group
permissions; a directory is first created via `MakeDir` with the directory's
name under the given parent, and then every child is imported into the fresh
directory id in order, stopping at the first error (later children are not
imported). -/
theorem import_behaviour :
    (∀ (d : ImportDriver) (node : ExtNode) (p : String),
      importFile d node [p] = .ok (recursiveImport d node ROOT_ID)) ∧
    (∀ (d : ImportDriver) (name parent : String),
      recursiveImport d (.file name) parent =
        (d.putRes name parent, [.put name [] parent])) ∧
    (∀ (d : ImportDriver) (name : String) (children : List ExtNode)
        (parent newId : String),
      d.makeDirRes name parent = .ok newId →
      recursiveImport d (.dir name children) parent =
        ((importChildren d children newId).1,
          .makeDir name parent [] :: (importChildren d children newId).2)) ∧
    (∀ (d : ImportDriver) (newId : String) (pre : List ExtNode) (child : ExtNode)
        (post : List ExtNode) (e : GoError),
      (∀ x ∈ pre, (recursiveImport d x newId).1 = .ok ()) →
      (recursiveImport d child newId).1 = .error e →
      importChildren d (pre ++ child :: post) newId =
        (.error e, (pre.map (fun x => (recursiveImport d x newId).2)).flatten
          ++ (recursiveImport d child newId).2)) := by
  refine ⟨?_, ?_, ?_, ?_⟩
  · intro d node p
    simp [importFile]
  · intro d name parent
    simp [recursiveImport, importFileInternal]
  · intro d name children parent newId h
    simp [recursiveImport, h]
  · intro d newId pre child post e hpre herr
    induction pre with
    | nil =>
      cases hr : recursiveImport d child newId with
      | mk v tr =>
        rw [hr] at herr
        simp only at herr
        subst herr
        simp [importChildren, hr]
    | cons x rest ih =>
      have hx : (recursiveImport d x newId).1 = .ok () :=
        hpre x (List.mem_cons_self x rest)
      cases hrx : recursiveImport d x newId with
      | mk v trx =>
        rw [hrx] at hx
        simp only at hx
        subst hx
        have ihr := ih (fun y hy => hpre y (List.mem_cons_of_mem x hy))
        simp [importChildren, hrx, ihr, List.append_assoc]

/-- Witness for C7 on concrete trees and the concrete test driver. -/
theorem import_behaviour_witness :
    importFile importTestDriver (.file "f") ["f"] =
      .ok (recursiveImport importTestDriver (.file "f") ROOT_ID) ∧
    recursiveImport importTestDriver (.file "f") "P" =
      (importTestDriver.putRes "f" "P", [.put "f" [] "P"]) ∧
    recursiveImport importTestDriver (.dir "d" [.file "f"]) "P" =
      ((importChildren importTestDriver [.file "f"] "d@P").1,
        .makeDir "d" "P" [] :: (importChildren importTestDriver [.file "f"] "d@P").2) ∧
    importChildren importTestDriver
        ([.file "u"] ++ ExtNode.file "bad" :: [.file "w"]) "P" =
      (.error (.putFailed "bad"),
        (([ExtNode.file "u"].map
          (fun x => (recursiveImport importTestDriver x "P").2)).flatten
          ++ (recursiveImport importTestDriver (.file "bad") "P").2)) := by
  refine ⟨import_behaviour.1 importTestDriver (.file "f") "f",
    import_behaviour.2.1 importTestDriver "f" "P",
    import_behaviour.2.2.1 importTestDriver "d" [.file "f"] "P" "d@P" (by rfl),
    import_behaviour.2.2.2 importTestDriver "P" [.file "u"] (.file "bad") [.file "w"]
      (.putFailed "bad") ?_ ?_⟩
  · intro x hx
    simp only [List.mem_singleton] at hx
    subst hx
    simp [recursiveImport, importFileInternal, importTestDriver]
  · simp [recursiveImport, importFileInternal, importTestDriver]

end Elfs
